import Mathlib

set_option maxHeartbeats 1000000
set_option maxRecDepth 8000

/-
A shallow embedding of the agent-orchestration core of the repository
(backend/app/orchestrator/workflow.py together with the five agent classes
under backend/app/agents).  Python dictionaries that are used as records are
translated to structures with the fields the orchestration code reads; the
external LLM call of `BaseAgent._invoke_llm` is abstracted by an oracle
giving, per invoked agent, the generated text and the raw input/output token
counts of the service reply (everything the orchestration logic consumes from
that call).  String handling follows Python: `needle in hay` is substring
occurrence over code points, `s[:500]` takes the first 500 code points, and
`str.upper`/`str.lower` are modelled by the ASCII case maps (every marker and
keyword comparison performed by the code on the cased string is over ASCII
characters, where the two agree).
-/

namespace PMHelpOrchestration

/-- Token accounting of one or two LLM calls, as the dict built by
`BaseAgent._invoke_llm` (base_agent.py lines 69-76). -/
structure Usage where
  input_tokens : Nat
  output_tokens : Nat
  total_tokens : Nat
deriving DecidableEq

/-- Raw reply of the external text-generation service consumed by
`BaseAgent._invoke_llm`: the generated text and the service token tallies. -/
structure LLMResult where
  content : String
  input_tokens : Nat
  output_tokens : Nat
deriving DecidableEq

/-- Usage dict constructed by `BaseAgent._invoke_llm` from the service reply
(base_agent.py lines 71-75): the total is computed as input + output. -/
def invoke_llm_usage (r : LLMResult) : Usage :=
  { input_tokens := r.input_tokens
    output_tokens := r.output_tokens
    total_tokens := r.input_tokens + r.output_tokens }

/-- Project context dict as read by the orchestrator: the only key the
orchestration code itself consults is "name" (`context.get("name", ...)` in
`_create_delegation_message` and `_extract_artifact`); the remaining business
fields are consumed only inside the LLM prompt, which the oracle absorbs. -/
structure ProjectContext where
  name : Option String
deriving DecidableEq

/-- The context dict built in `AgentOrchestrator.process_message`
(workflow.py lines 80-84) and handed unchanged to each invoked agent. -/
structure TurnContext where
  user_message : String
  history : List (String × String)
  project_context : ProjectContext
deriving DecidableEq

/-- Whether the character list `n` is an initial segment of the second list. -/
def leadsWith : List Char → List Char → Bool
  | [], _ => true
  | _ :: _, [] => false
  | a :: as, b :: bs => a == b && leadsWith as bs

/-- Whether the character list `n` occurs contiguously inside the second list. -/
def occursIn (n : List Char) : List Char → Bool
  | [] => leadsWith n []
  | c :: rest => leadsWith n (c :: rest) || occursIn n rest

/-- Python `needle in hay` on strings: substring occurrence by code points. -/
def pyIn (needle hay : String) : Bool :=
  occursIn needle.toList hay.toList

/-- Python `str.lower` restricted to ASCII case mapping (see header note). -/
def pyLower (s : String) : String :=
  String.mk (s.toList.map Char.toLower)

/-- Python `str.upper` restricted to ASCII case mapping (see header note). -/
def pyUpper (s : String) : String :=
  String.mk (s.toList.map Char.toUpper)

/-- First-match lookup over an ordered (agent, markers) table: the Python
loops `for agent, markers in table.items(): if any(m in s for m in markers)`
in `_check_delegation` and `_detect_agent_request`, which return the first
agent one of whose markers occurs in `s`. -/
def firstAgentMatch (table : List (String × List String)) (s : String) :
    Option String :=
  match table with
  | [] => none
  | (a, ms) :: rest =>
      if ms.any (fun m => pyIn m s) then some a else firstAgentMatch rest s

/-- Escalation marker list of `ProjectManagerAgent._check_escalation`
(project_manager_agent.py lines 168-174). -/
def escalation_markers_pm : List String :=
  ["ESCALATE TO CEO", "Questions for CEO", "CEO DECISION", "YOUR DECISION",
   "🚩"]

/-- `ProjectManagerAgent._check_escalation` (project_manager_agent.py
lines 166-175). -/
def check_escalation_pm (response : String) : Bool :=
  escalation_markers_pm.any (fun m => pyIn m response)

/-- Delegation marker table of `ProjectManagerAgent._check_delegation`
(project_manager_agent.py lines 181-186), in dict insertion order. -/
def delegation_markers_pm : List (String × List String) :=
  [("discovery_agent", ["DELEGATE TO DISCOVERY", "→ DISCOVERY"]),
   ("delivery_agent", ["DELEGATE TO DELIVERY", "→ DELIVERY"]),
   ("tech_lead_agent", ["DELEGATE TO TECH LEAD", "→ TECH LEAD"]),
   ("business_agent", ["DELEGATE TO BUSINESS", "DELEGATE TO CPO",
                       "→ CPO"])]

/-- `ProjectManagerAgent._check_delegation` (project_manager_agent.py
lines 177-192): markers are matched against the upper-cased response. -/
def check_delegation_pm (response : String) : Option String :=
  firstAgentMatch delegation_markers_pm (pyUpper response)

/-- Escalation marker list of `BusinessAgent._check_escalation`
(business_agent.py lines 221-227). -/
def escalation_markers_business : List String :=
  ["🤔 **CEO DECISION NEEDED**", "CEO DECISION NEEDED", "YOUR DECISION",
   "❓ **Your decision?**", "Your decision?"]

/-- `BusinessAgent._check_escalation` (business_agent.py lines 219-228). -/
def check_escalation_business (response : String) : Bool :=
  escalation_markers_business.any (fun m => pyIn m response)

/-- Delegation marker table of `BusinessAgent._check_delegation`
(business_agent.py lines 232-254), in dict insertion order. -/
def delegation_markers_business : List (String × List String) :=
  [("discovery_agent",
    ["delegate to discovery", "agent 1", "discovery expert",
     "market validation", "validate the idea"]),
   ("delivery_agent",
    ["delegate to delivery", "agent 2", "delivery agent", "requirements",
     "user stories"]),
   ("tech_lead_agent",
    ["delegate to tech", "agent 3", "tech lead", "technical decision",
     "architecture"])]

/-- `BusinessAgent._check_delegation` (business_agent.py lines 230-261):
markers are matched against the lower-cased response. -/
def check_delegation_business (response : String) : Option String :=
  firstAgentMatch delegation_markers_business (pyLower response)

/-- The `name` attribute each agent class passes to `BaseAgent.__init__`
(returned as "agent_name" by its `process`); only the five registry agents
are ever invoked, so the fall-through is unreachable from the orchestrator. -/
def agent_self_name : String → String
  | "project_manager_agent" => "Project Manager"
  | "business_agent" => "Business Agent"
  | "discovery_agent" => "Product Discovery Expert"
  | "delivery_agent" => "Product Delivery Expert"
  | "tech_lead_agent" => "Tech Lead"
  | _ => ""

/-- The result dict of an agent `process` call (the common shape returned by
all five agent classes), plus the "delegated_response" key the orchestrator
may add later, tracked separately in `DelegationStep`. -/
structure Outcome where
  agent : String
  agent_name : String
  response : String
  needs_escalation : Bool
  delegate_to : Option String
  usage : Option Usage
deriving DecidableEq

/-- The `process` method of the agent registered under `agentId`, with the
LLM call abstracted by its reply `llm`.  All five classes return the same
dict shape from the reply; `ProjectManagerAgent` and `BusinessAgent`
additionally run their `_check_escalation` / `_check_delegation` heuristics
on the generated text, while `DiscoveryAgent`, `DeliveryAgent` and
`TechLeadAgent` return `needs_escalation = False` and `delegate_to = None`
unconditionally.  The usage dict is always present in the reply. -/
def agent_process (agentId : String) (llm : LLMResult) : Outcome :=
  { agent := agentId
    agent_name := agent_self_name agentId
    response := llm.content
    needs_escalation :=
      if agentId = "project_manager_agent" then check_escalation_pm llm.content
      else if agentId = "business_agent" then check_escalation_business llm.content
      else false
    delegate_to :=
      if agentId = "project_manager_agent" then check_delegation_pm llm.content
      else if agentId = "business_agent" then check_delegation_business llm.content
      else none
    usage := some (invoke_llm_usage llm) }

/-- Keys of `AgentOrchestrator.self.agents` (workflow.py lines 22-28), in
dict insertion order. -/
def agent_ids : List String :=
  ["project_manager_agent", "business_agent", "discovery_agent",
   "delivery_agent", "tech_lead_agent"]

/-- `AgentOrchestrator.self.default_agent` (workflow.py line 30). -/
def default_agent : String := "project_manager_agent"

/-- Display-name table `AgentOrchestrator.self.agent_names` (workflow.py
lines 33-39). -/
def agent_display_names : List (String × String) :=
  [("project_manager_agent", "Project Manager"),
   ("business_agent", "Business Agent (CPO)"),
   ("discovery_agent", "Discovery Expert"),
   ("delivery_agent", "Delivery Expert"),
   ("tech_lead_agent", "Tech Lead")]

/-- Association-list lookup, as Python `dict.get` with no default. -/
def lookupStr (table : List (String × String)) (k : String) : Option String :=
  match table with
  | [] => none
  | (a, v) :: rest => if a = k then some v else lookupStr rest k

/-- `self.agent_names.get(agent, agent)`: display name with the id itself as
the fallback. -/
def display_name (agent : String) : String :=
  (lookupStr agent_display_names agent).getD agent

/-- One entry of the `artifact_markers` dict of
`AgentOrchestrator._extract_artifact`: marker substrings, artifact type tag
and the title already filled with the project name (`ty` renders the Python
key "type"). -/
structure ArtifactSpec where
  markers : List String
  ty : String
  title : String
deriving DecidableEq
/-- The routing keyword table of `AgentOrchestrator._detect_agent_request`
(workflow.py lines 172-178), in Python dict insertion order.  The non-ASCII
entries reproduce the exact code points stored in the source file. -/
def agent_keywords : List (String × List String) :=
  [  ("project_manager_agent",
    ["project manager",
     "pm",
     "\u011e\u00bc\u011e\u00b5\u011e\u00bd\u011e\u00b5\u011e\u00b4\u011e\u00b6\u011e\u00b5\u00d1\u20ac \u011e\u00bf\u00d1\u20ac\u011e\u00be\u011e\u00b5\u011e\u00ba\u00d1\u201a\u011e\u00b0",
     "\u011e\u00ba\u011e\u00be\u011e\u00be\u00d1\u20ac\u011e\u00b4\u011e\u00b8\u011e\u00bd\u011e\u00b0\u00d1\u201a\u011e\u00be\u00d1\u20ac",
     "\u00d1\u00d1\u201a\u011e\u00b0\u00d1\u201a\u00d1\u0192\u00d1",
     "\u011e\u00bf\u00d1\u20ac\u011e\u00be\u011e\u00b3\u00d1\u20ac\u011e\u00b5\u00d1\u00d1"]),
  ("business_agent",
    ["business agent",
     "cpo",
     "cro",
     "\u011e\u00b1\u011e\u00b8\u011e\u00b7\u011e\u00bd\u011e\u00b5\u00d1 \u011e\u00b0\u011e\u00b3\u011e\u00b5\u011e\u00bd\u00d1\u201a",
     "\u011e\u00b1\u011e\u00b8\u011e\u00b7\u011e\u00bd\u011e\u00b5\u00d1-\u011e\u00b0\u011e\u00b3\u011e\u00b5\u011e\u00bd\u00d1\u201a",
     "unit economics",
     "\u00d1\u011e\u00bd\u011e\u00b8\u00d1\u201a \u00d1\u011e\u00ba\u011e\u00be\u011e\u00bd\u011e\u00be\u011e\u00bc\u011e\u00b8\u011e\u00ba\u011e\u00b0"]),
  ("discovery_agent",
    ["discovery",
     "validate",
     "market research",
     "\u011e\u00b4\u011e\u00b8\u00d1\u011e\u00ba\u011e\u00b0\u011e\u00b2\u011e\u00b5\u00d1\u20ac\u011e\u00b8",
     "\u011e\u00b2\u011e\u00b0\u011e\u00bb\u011e\u00b8\u011e\u00b4\u011e\u00b0\u00d1\u2020\u011e\u00b8\u00d1",
     "\u011e\u00b8\u00d1\u00d1\u011e\u00bb\u011e\u00b5\u011e\u00b4\u011e\u00be\u011e\u00b2\u011e\u00b0\u011e\u00bd\u011e\u00b8\u011e\u00b5 \u00d1\u20ac\u00d1\u2039\u011e\u00bd\u011e\u00ba\u011e\u00b0",
     "research",
     "\u00d1\u20ac\u011e\u00b5\u00d1\u011e\u00b5\u00d1\u20ac\u00d1\u2021",
     "\u011e\u00ba\u011e\u00be\u011e\u00bd\u011e\u00ba\u00d1\u0192\u00d1\u20ac\u011e\u00b5\u011e\u00bd\u00d1\u201a\u00d1\u2039",
     "competitors"]),
  ("delivery_agent",
    ["delivery",
     "requirements",
     "user stories",
     "\u00d1\u201a\u00d1\u20ac\u011e\u00b5\u011e\u00b1\u011e\u00be\u011e\u00b2\u011e\u00b0\u011e\u00bd\u011e\u00b8\u00d1",
     "\u00d1\u011e\u00b7\u011e\u00b5\u00d1\u20ac \u00d1\u00d1\u201a\u011e\u00be\u00d1\u20ac\u011e\u00b8",
     "user story",
     "prd",
     "specs"]),
  ("tech_lead_agent",
    ["tech lead",
     "technical",
     "architecture",
     "stack",
     "\u00d1\u201a\u011e\u00b5\u00d1\u2026\u011e\u00bb\u011e\u00b8\u011e\u00b4",
     "\u011e\u00b0\u00d1\u20ac\u00d1\u2026\u011e\u00b8\u00d1\u201a\u011e\u00b5\u011e\u00ba\u00d1\u201a\u00d1\u0192\u00d1\u20ac\u011e\u00b0",
     "\u00d1\u00d1\u201a\u011e\u00b5\u011e\u00ba",
     "\u00d1\u201a\u011e\u00b5\u00d1\u2026\u011e\u00bd\u011e\u00b8\u00d1\u2021\u011e\u00b5\u00d1\u011e\u00ba\u011e\u00b8\u011e\u00b9"])]

/-- `AgentOrchestrator._create_delegation_message` (workflow.py lines 186-200).
The computed `from_name`/`to_name` of the source are never used in the returned
string, and the `user_message` argument is likewise unused; both are kept as
unused parameters.  The f-string project-name hole is string concatenation. -/
def create_delegation_message (_from_agent to_agent _user_message : String)
    (context : ProjectContext) : String :=
  let project_name := context.name.getD "\u011e\u00bf\u00d1\u20ac\u011e\u00be\u011e\u00b5\u011e\u00ba\u00d1\u201a"
  if to_agent = "discovery_agent" then
    "\u011e\u0178\u011e\u00b5\u00d1\u20ac\u011e\u00b5\u011e\u00b4\u011e\u00b0\u00d1 \u011e\u00b7\u011e\u00b0\u011e\u00b4\u011e\u00b0\u00d1\u2021\u00d1\u0192 \u011e\u00bd\u011e\u00b0 \u011e\u00b2\u011e\u00b0\u011e\u00bb\u011e\u00b8\u011e\u00b4\u011e\u00b0\u00d1\u2020\u011e\u00b8\u00d1 \u00d1\u20ac\u00d1\u2039\u011e\u00bd\u011e\u00ba\u011e\u00b0 \u011e\u00b4\u011e\u00bb\u00d1 \u011e\u00bf\u00d1\u20ac\u011e\u00be\u011e\u00b5\u011e\u00ba\u00d1\u201a\u011e\u00b0 \x27" ++ project_name ++ "\x27. \u011e\u00d1\u0192\u011e\u00b6\u011e\u00bd\u011e\u00be \u011e\u00bf\u00d1\u20ac\u011e\u00be\u011e\u00b0\u011e\u00bd\u011e\u00b0\u011e\u00bb\u011e\u00b8\u011e\u00b7\u011e\u00b8\u00d1\u20ac\u011e\u00be\u011e\u00b2\u011e\u00b0\u00d1\u201a\u00d1\u0152 \u00d1\u2020\u011e\u00b5\u011e\u00bb\u011e\u00b5\u011e\u00b2\u00d1\u0192\u00d1 \u011e\u00b0\u00d1\u0192\u011e\u00b4\u011e\u00b8\u00d1\u201a\u011e\u00be\u00d1\u20ac\u011e\u00b8\u00d1 \u011e\u00b8 \u00d1\u20ac\u00d1\u2039\u011e\u00bd\u011e\u00be\u00d1\u2021\u011e\u00bd\u00d1\u2039\u011e\u00b5 \u011e\u00b2\u011e\u00be\u011e\u00b7\u011e\u00bc\u011e\u00be\u011e\u00b6\u011e\u00bd\u011e\u00be\u00d1\u00d1\u201a\u011e\u00b8."
  else if to_agent = "delivery_agent" then
    "\u011e\u0178\u011e\u00b5\u00d1\u20ac\u011e\u00b5\u011e\u00b4\u011e\u00b0\u00d1 \u011e\u00b7\u011e\u00b0\u011e\u00b4\u011e\u00b0\u00d1\u2021\u00d1\u0192 \u011e\u00bd\u011e\u00b0 \u011e\u00bf\u00d1\u20ac\u011e\u00be\u00d1\u20ac\u011e\u00b0\u011e\u00b1\u011e\u00be\u00d1\u201a\u011e\u00ba\u00d1\u0192 \u00d1\u201a\u00d1\u20ac\u011e\u00b5\u011e\u00b1\u011e\u00be\u011e\u00b2\u011e\u00b0\u011e\u00bd\u011e\u00b8\u011e\u00b9 \u011e\u00b4\u011e\u00bb\u00d1 \u011e\u00bf\u00d1\u20ac\u011e\u00be\u011e\u00b5\u011e\u00ba\u00d1\u201a\u011e\u00b0 \x27" ++ project_name ++ "\x27. \u011e\u00d1\u0192\u011e\u00b6\u011e\u00bd\u011e\u00be \u00d1\u00d1\u201e\u011e\u00be\u00d1\u20ac\u011e\u00bc\u011e\u00b8\u00d1\u20ac\u011e\u00be\u011e\u00b2\u011e\u00b0\u00d1\u201a\u00d1\u0152 user stories \u011e\u00b8 \u011e\u00be\u011e\u00bf\u00d1\u20ac\u011e\u00b5\u011e\u00b4\u011e\u00b5\u011e\u00bb\u011e\u00b8\u00d1\u201a\u00d1\u0152 MVP scope."
  else if to_agent = "tech_lead_agent" then
    "\u011e\u0178\u011e\u00b5\u00d1\u20ac\u011e\u00b5\u011e\u00b4\u011e\u00b0\u00d1 \u011e\u00b7\u011e\u00b0\u011e\u00b4\u011e\u00b0\u00d1\u2021\u00d1\u0192 \u011e\u00bd\u011e\u00b0 \u00d1\u201a\u011e\u00b5\u00d1\u2026\u011e\u00bd\u011e\u00b8\u00d1\u2021\u011e\u00b5\u00d1\u011e\u00ba\u00d1\u0192\u00d1 \u011e\u00bf\u00d1\u20ac\u011e\u00be\u00d1\u20ac\u011e\u00b0\u011e\u00b1\u011e\u00be\u00d1\u201a\u011e\u00ba\u00d1\u0192 \u011e\u00b4\u011e\u00bb\u00d1 \u011e\u00bf\u00d1\u20ac\u011e\u00be\u011e\u00b5\u011e\u00ba\u00d1\u201a\u011e\u00b0 \x27" ++ project_name ++ "\x27. \u011e\u00d1\u0192\u011e\u00b6\u011e\u00bd\u011e\u00be \u011e\u00be\u011e\u00bf\u00d1\u20ac\u011e\u00b5\u011e\u00b4\u011e\u00b5\u011e\u00bb\u011e\u00b8\u00d1\u201a\u00d1\u0152 \u00d1\u00d1\u201a\u011e\u00b5\u011e\u00ba \u011e\u00b8 \u011e\u00b0\u00d1\u20ac\u00d1\u2026\u011e\u00b8\u00d1\u201a\u011e\u00b5\u011e\u00ba\u00d1\u201a\u00d1\u0192\u00d1\u20ac\u00d1\u0192."
  else
    "\u011e\u0178\u011e\u00b5\u00d1\u20ac\u011e\u00b5\u011e\u00b4\u011e\u00b0\u00d1 \u011e\u00b7\u011e\u00b0\u011e\u00b4\u011e\u00b0\u00d1\u2021\u00d1\u0192 \u011e\u00b4\u011e\u00bb\u00d1 \u011e\u00b4\u011e\u00b0\u011e\u00bb\u00d1\u0152\u011e\u00bd\u011e\u00b5\u011e\u00b9\u00d1\u02c6\u011e\u00b5\u011e\u00b9 \u011e\u00bf\u00d1\u20ac\u011e\u00be\u00d1\u20ac\u011e\u00b0\u011e\u00b1\u011e\u00be\u00d1\u201a\u011e\u00ba\u011e\u00b8."

/-- The per-agent artifact marker table of `AgentOrchestrator._extract_artifact`
(workflow.py lines 217-240): `artifact_markers.get(agent)`.  Agents outside the
four mapped ids (in particular `project_manager_agent`) have no entry. -/
def artifact_markers (agent : String) (context : ProjectContext) : Option ArtifactSpec :=
  if agent = "discovery_agent" then
    some ⟨["\u011f\u0178\u201c\u0160 **DISCOVERY SUMMARY**",
       "GO/NO-GO",
       "TAM:",
       "SAM:"],
      "market_analysis", "Market Analysis: " ++ context.name.getD "Project"⟩
  else if agent = "delivery_agent" then
    some ⟨["\u011f\u0178\u201c\u2039 **REQUIREMENTS SUMMARY**",
       "MVP Scope",
       "User Stories",
       "P0 (Must-have)"],
      "prd", "PRD: " ++ context.name.getD "Project"⟩
  else if agent = "tech_lead_agent" then
    some ⟨["\u011f\u0178\u201d\u00a7 **TECHNICAL RECOMMENDATION**",
       "Recommended Stack",
       "Architecture"],
      "tech_spec", "Tech Spec: " ++ context.name.getD "Project"⟩
  else if agent = "business_agent" then
    some ⟨["\u011f\u0178\u201c\u02c6 **UNIT ECONOMICS**",
       "LTV/CAC",
       "\u011f\u0178\u2019\u00b0 **MVP SCOPE**"],
      "mvp_scope", "MVP Scope: " ++ context.name.getD "Project"⟩
  else none

/-- Content prefix of the artifact-created Communication (workflow.py line 134). -/
def artifact_comm_content (title : String) : String :=
  "\u011e\u00a1\u011e\u00be\u011e\u00b7\u011e\u00b4\u011e\u00b0\u011e\u00bd \u011e\u00b0\u00d1\u20ac\u00d1\u201a\u011e\u00b5\u00d1\u201e\u011e\u00b0\u011e\u00ba\u00d1\u201a: " ++ title

/-- The artifact dict returned by `AgentOrchestrator._extract_artifact` on
success (workflow.py lines 246-250). -/
structure ArtifactOut where
  ty : String
  title : String
  content : String
deriving DecidableEq

/-- `AgentOrchestrator._extract_artifact` (workflow.py lines 214-252):
look up the agent in the marker table; succeed iff one of its marker
substrings occurs (case-sensitively) in the response; on success the content
is the full response and the title the filled template. -/
def extract_artifact (response agent : String) (context : ProjectContext) :
    Option ArtifactOut :=
  match artifact_markers agent context with
  | none => none
  | some config =>
      if config.markers.any (fun m => pyIn m response) then
        some { ty := config.ty, title := config.title, content := response }
      else none

/-- `AgentOrchestrator._summarize_for_communication` (workflow.py
lines 202-207): responses longer than 500 characters are cut to their first
500 characters with "..." appended; shorter ones pass through unchanged. -/
def summarize_for_communication (response : String) : String :=
  if response.length > 500 then String.mk (response.toList.take 500) ++ "..."
  else response

/-- `AgentOrchestrator._combine_responses` (workflow.py lines 209-212). -/
def combine_responses (original delegated delegate_to : String) : String :=
  original ++ "\n\n---\n\n**" ++ display_name delegate_to ++ ":**\n\n"
    ++ delegated

/-- One communication dict appended to the per-turn `communications` list
(the DB-generated artifact id of an artifact-created communication is
external state and not modelled). -/
structure Communication where
  from_agent : String
  to_agent : String
  message_type : String
  content : String
deriving DecidableEq

/-- The dict returned by `AgentOrchestrator._store_artifact` and appended to
the per-turn `artifacts` list (minus the DB-generated id). -/
structure StoredArtifact where
  ty : String
  title : String
  created_by_agent : String
deriving DecidableEq

/-- The usage-combination step of `process_message` (workflow.py
lines 147-152): the field-wise sum is stored only when both the primary and
the delegated result carry a (truthy) usage dict; otherwise the primary
usage is left as it is. -/
def mergeUsage : Option Usage → Option Usage → Option Usage
  | some u, some v =>
      some { input_tokens := u.input_tokens + v.input_tokens
             output_tokens := u.output_tokens + v.output_tokens
             total_tokens := u.total_tokens + v.total_tokens }
  | u, _ => u

/-- Everything the delegation block of `process_message` (workflow.py
lines 89-152) contributes to the turn: the possibly-rewritten primary result
dict, the "delegated_response" key, the communications and stored artifacts
appended so far, and the list of (agent, context) delegate invocations it
performed. -/
structure DelegationStep where
  result : Outcome
  delegated_response : Option String
  communications : List Communication
  artifacts : List StoredArtifact
  invoked : List (String × TurnContext)
deriving DecidableEq

/-- The delegation block of `process_message` (workflow.py lines 89-152),
with `dbAvail` standing for `db and project_id` (both present): a truthy
`delegate_to` first emits the delegation communication, then invokes the
delegate only when its id is in the registry, in which case the response
communication, the delegate-artifact check, the response combination and the
usage combination follow; an id missing from the registry performs no second
invocation and leaves the result dict untouched. -/
def handle_delegation (llm : String → LLMResult) (agent_name : String)
    (ctx : TurnContext) (result : Outcome) (dbAvail : Bool) :
    DelegationStep :=
  match result.delegate_to with
  | none =>
      { result := result, delegated_response := none, communications := []
        artifacts := [], invoked := [] }
  | some delegate_to =>
      if delegate_to = "" then
        { result := result, delegated_response := none, communications := []
          artifacts := [], invoked := [] }
      else
        let delegation_comm : Communication :=
          { from_agent := agent_name, to_agent := delegate_to
            message_type := "delegation"
            content := create_delegation_message agent_name delegate_to
              ctx.user_message ctx.project_context }
        if agent_ids.contains delegate_to then
          let delegated_result := agent_process delegate_to (llm delegate_to)
          let response_comm : Communication :=
            { from_agent := delegate_to, to_agent := agent_name
              message_type := "response"
              content := summarize_for_communication delegated_result.response }
          let artifactPart : List Communication × List StoredArtifact :=
            match extract_artifact delegated_result.response delegate_to
                ctx.project_context with
            | some art =>
                if dbAvail then
                  ([{ from_agent := delegate_to, to_agent := "business_agent"
                      message_type := "artifact_created"
                      content := artifact_comm_content art.title }],
                   [{ ty := art.ty, title := art.title
                      created_by_agent := delegate_to }])
                else ([], [])
            | none => ([], [])
          { result :=
              { result with
                response := combine_responses result.response
                  delegated_result.response delegate_to
                usage := mergeUsage result.usage delegated_result.usage }
            delegated_response := some delegated_result.response
            communications := delegation_comm :: response_comm :: artifactPart.1
            artifacts := artifactPart.2
            invoked := [(delegate_to, ctx)] }
        else
          { result := result, delegated_response := none
            communications := [delegation_comm], artifacts := []
            invoked := [] }

/-- `AgentOrchestrator._detect_agent_request` (workflow.py lines 168-184):
the first agent of the keyword table one of whose keywords occurs in the
lower-cased message, falling back to the current agent unchanged. -/
def detect_agent_request (message current_agent : String) : String :=
  match firstAgentMatch agent_keywords (pyLower message) with
  | some a => a
  | none => current_agent

/-- The dict returned by `AgentOrchestrator.process_message` (workflow.py
lines 160-166), together with the list of (agent, context) invocations the
turn performed (primary first). -/
structure OrchResult where
  result : Outcome
  delegated_response : Option String
  current_agent : String
  suggested_next_agent : Option String
  communications : List Communication
  artifacts : List StoredArtifact
  invoked : List (String × TurnContext)
deriving DecidableEq

/-- `AgentOrchestrator.process_message` (workflow.py lines 41-166).  Routing:
`current_agent or default_agent` (Python: `None` and the empty string both
fall back) refined by `_detect_agent_request`; the agent actually invoked is
`self.agents.get(agent_name, self.agents[self.default_agent])`, i.e. the
routed id when registered and the default otherwise; then the delegation
block, the primary-artifact check (performed on the possibly-combined
response under the routed `agent_name`), and the result assembly, whose
"current_agent" key is the routed `agent_name` even when no agent is
registered under it. -/
def process_message (llm : String → LLMResult) (message : String)
    (conversation_history : List (String × String))
    (project_context : ProjectContext) (current_agent : Option String)
    (dbAvail : Bool) : OrchResult :=
  let agent_name0 :=
    match current_agent with
    | none => default_agent
    | some s => if s = "" then default_agent else s
  let agent_name := detect_agent_request message agent_name0
  let ctx : TurnContext :=
    { user_message := message, history := conversation_history
      project_context := project_context }
  let agentUsed :=
    if agent_ids.contains agent_name then agent_name else default_agent
  let result := agent_process agentUsed (llm agentUsed)
  let step := handle_delegation llm agent_name ctx result dbAvail
  let artifacts2 :=
    match extract_artifact step.result.response agent_name
        ctx.project_context with
    | some art =>
        if dbAvail then
          step.artifacts
            ++ [{ ty := art.ty, title := art.title
                  created_by_agent := agent_name }]
        else step.artifacts
    | none => step.artifacts
  { result := step.result
    delegated_response := step.delegated_response
    current_agent := agent_name
    suggested_next_agent := step.result.delegate_to
    communications := step.communications
    artifacts := artifacts2
    invoked := (agentUsed, ctx) :: step.invoked }

/-- Transcription of the specification sentence "Each responder id maps to a
fixed list of marker substrings": the marker lists as the spec describes
them, empty for responders with no mapping.  Stated separately from
`artifact_markers` so that the detector can be compared against the spec
description. -/
def specArtifactMarkers (agent : String) : List String :=
  if agent = "discovery_agent" then
    ["\u011f\u0178\u201c\u0160 **DISCOVERY SUMMARY**", "GO/NO-GO", "TAM:",
     "SAM:"]
  else if agent = "delivery_agent" then
    ["\u011f\u0178\u201c\u2039 **REQUIREMENTS SUMMARY**", "MVP Scope",
     "User Stories", "P0 (Must-have)"]
  else if agent = "tech_lead_agent" then
    ["\u011f\u0178\u201d\u00a7 **TECHNICAL RECOMMENDATION**",
     "Recommended Stack", "Architecture"]
  else if agent = "business_agent" then
    ["\u011f\u0178\u201c\u02c6 **UNIT ECONOMICS**", "LTV/CAC",
     "\u011f\u0178\u2019\u00b0 **MVP SCOPE**"]
  else []

/-- Transcription of the specification sentence "its title is the template
filled with the project name (default "Project" if absent)": the per-agent
title templates, empty for responders with no mapping. -/
def specArtifactTitle (agent : String) (projectName : Option String) :
    String :=
  let n := projectName.getD "Project"
  if agent = "discovery_agent" then "Market Analysis: " ++ n
  else if agent = "delivery_agent" then "PRD: " ++ n
  else if agent = "tech_lead_agent" then "Tech Spec: " ++ n
  else if agent = "business_agent" then "MVP Scope: " ++ n
  else ""

/-- Invariant claimed of every usage value: total = input + output. -/
def UsageInv (u : Usage) : Prop :=
  u.total_tokens = u.input_tokens + u.output_tokens

instance (u : Usage) : Decidable (UsageInv u) := by
  unfold UsageInv; infer_instance


/-- Helper: a first-match lookup can only return an agent listed in the
table. -/
theorem firstAgentMatch_mem {table : List (String × List String)}
    {s a : String} (h : firstAgentMatch table s = some a) :
    a ∈ table.map Prod.fst := by
  induction table with
  | nil => simp [firstAgentMatch] at h
  | cons p rest ih =>
      obtain ⟨b, ms⟩ := p
      by_cases hb : ms.any (fun m => pyIn m s) = true
      · rw [firstAgentMatch, if_pos hb] at h
        cases h
        simp
      · rw [firstAgentMatch, if_neg hb] at h
        simpa using Or.inr (ih h)

/-- Helper: the delegation block never changes the "agent" key of the
primary result dict. -/
theorem handle_delegation_result_agent (llm : String → LLMResult)
    (agent_name : String) (ctx : TurnContext) (result : Outcome)
    (db : Bool) :
    (handle_delegation llm agent_name ctx result db).result.agent
      = result.agent := by
  unfold handle_delegation
  split
  · rfl
  · split
    · rfl
    · split
      · simp
      · rfl

/-- Helper: string length distributes over append. -/
theorem string_length_append (a b : String) :
    (a ++ b).length = a.length + b.length := by
  obtain ⟨la⟩ := a
  obtain ⟨lb⟩ := b
  show (String.mk (la ++ lb)).length = _
  simp

/-- Claim C9: whenever the Business responder's generated text contains the
literal marker "CEO DECISION NEEDED", the resulting Outcome's escalation
flag is true. -/
theorem business_escalation_of_marker (l : LLMResult)
    (h : pyIn "CEO DECISION NEEDED" l.content = true) :
    (agent_process "business_agent" l).needs_escalation = true := by
  simp [agent_process, check_escalation_business,
    escalation_markers_business, h]

/-- Claim C9 witness: a concrete Business reply containing the marker
escalates. -/
theorem business_escalation_of_marker_witness :
    (agent_process "business_agent"
      ⟨"Analysis done. CEO DECISION NEEDED: choose pricing A or B.",
       7, 9⟩).needs_escalation = true :=
  business_escalation_of_marker _ (by decide)

/-- Claim C8: the usage dict built from a responder invocation satisfies
total = input + output, and the field-wise usage merge preserves the
invariant: when every usage value carried by the two merge inputs satisfies
it, so does any usage value carried by the merged result. -/
theorem usage_invariant (a : String) (l : LLMResult) (p q : Option Usage) :
    (∀ u, (agent_process a l).usage = some u → UsageInv u)
    ∧ (∀ w, (∀ u, p = some u → UsageInv u) → (∀ v, q = some v → UsageInv v) →
        mergeUsage p q = some w → UsageInv w) := by
  constructor
  · intro u hu
    have hu2 : invoke_llm_usage l = u := by
      simpa [agent_process] using hu
    subst hu2
    simp [UsageInv, invoke_llm_usage]
  · intro w hp hq hmerge
    cases p with
    | none =>
        cases q with
        | none => simp [mergeUsage] at hmerge
        | some v => simp [mergeUsage] at hmerge
    | some u =>
        cases q with
        | none =>
            have hw : u = w := by simpa [mergeUsage] using hmerge
            exact hw ▸ hp u rfl
        | some v =>
            have h1 := hp u rfl
            have h2 := hq v rfl
            have hw : ({ input_tokens := u.input_tokens + v.input_tokens
                         output_tokens := u.output_tokens + v.output_tokens
                         total_tokens := u.total_tokens + v.total_tokens }
                       : Usage) = w := by
              simpa [mergeUsage] using hmerge
            subst hw
            simp only [UsageInv] at h1 h2 ⊢
            omega

/-- Claim C8 witness: the invariant holds for a concrete invocation usage
and for a concrete merge of two invariant-satisfying usages. -/
theorem usage_invariant_witness :
    UsageInv ⟨3, 4, 7⟩ ∧ UsageInv ⟨15, 25, 40⟩ := by
  constructor
  · exact (usage_invariant "discovery_agent" ⟨"text", 3, 4⟩ none none).1
      ⟨3, 4, 7⟩ (by decide)
  · exact (usage_invariant "discovery_agent" ⟨"text", 3, 4⟩
      (some ⟨10, 20, 30⟩) (some ⟨5, 5, 10⟩)).2 ⟨15, 25, 40⟩
      (by intro u hu; cases hu; decide)
      (by intro v hv; cases hv; decide)
      (by decide)

/-- Claim C7 fails on the code: at a 501-character delegate reply the
response-communication content is the 500-character cut with "..." appended,
503 characters in all, exceeding the claimed 500-character bound. -/
theorem summarize_overflows_500 :
    (summarize_for_communication
      (String.mk (List.replicate 501 'a'))).length = 503
    ∧ ¬ (summarize_for_communication
      (String.mk (List.replicate 501 'a'))).length ≤ 500 := by
  constructor
  · decide
  · decide

/-- Claim C7 amended: the response-communication content is the delegate's
text unchanged when it has at most 500 characters, and otherwise its first
500 characters with "..." appended, 503 characters in all; the content never
exceeds 503 characters. -/
theorem summarize_spec (response : String) :
    (response.length ≤ 500 → summarize_for_communication response = response)
    ∧ (500 < response.length →
        summarize_for_communication response
          = String.mk (response.toList.take 500) ++ "..."
        ∧ (summarize_for_communication response).length = 503)
    ∧ (summarize_for_communication response).length ≤ 503 := by
  by_cases h : response.length > 500
  · refine ⟨fun hle => absurd hle (by omega), fun _ => ⟨?_, ?_⟩, ?_⟩
    · simp [summarize_for_communication, h]
    · have hlen : (summarize_for_communication response).length
          = (String.mk (response.toList.take 500) ++ "...").length := by
        simp [summarize_for_communication, h]
      rw [hlen, string_length_append]
      have htake : (String.mk (response.toList.take 500)).length = 500 := by
        have : response.toList.length = response.length := rfl
        simp [List.length_take, this]
        omega
      rw [htake]
      rfl
    · have hlen : (summarize_for_communication response).length
          = (String.mk (response.toList.take 500) ++ "...").length := by
        simp [summarize_for_communication, h]
      rw [hlen, string_length_append]
      have htl : response.toList.length = response.length := rfl
      have hdots : ("..." : String).length = 3 := rfl
      simp [List.length_take, htl, hdots]
  · have hle : response.length ≤ 500 := by omega
    have heq : summarize_for_communication response = response := by
      simp [summarize_for_communication, h]
    exact ⟨fun _ => heq, fun hgt => absurd hgt (by omega),
      by rw [heq]; omega⟩

/-- Claim C7 witness for the amended statement: a short reply passes through
unchanged and a 501-character reply becomes 503 characters. -/
theorem summarize_spec_witness :
    summarize_for_communication "short summary" = "short summary"
    ∧ (summarize_for_communication
        (String.mk (List.replicate 501 'a'))).length = 503 :=
  ⟨(summarize_spec "short summary").1 (by decide),
   ((summarize_spec (String.mk (List.replicate 501 'a'))).2.1
      (by decide)).2⟩

/-- Claim C1 fails on the code: for a primary result whose delegation target
is the unknown id "marketing_agent", the delegation block still emits a
delegation-category Communication (it is created before the registry lookup),
so the handling is not communication-free. -/
theorem unknown_delegation_emits_comm :
    (handle_delegation (fun _ => ⟨"text", 0, 0⟩) "project_manager_agent"
      ⟨"hi", [], ⟨none⟩⟩
      { agent := "project_manager_agent", agent_name := "Project Manager"
        response := "done", needs_escalation := false
        delegate_to := some "marketing_agent"
        usage := some ⟨1, 2, 3⟩ } false).communications ≠ []
    ∧ ((handle_delegation (fun _ => ⟨"text", 0, 0⟩) "project_manager_agent"
      ⟨"hi", [], ⟨none⟩⟩
      { agent := "project_manager_agent", agent_name := "Project Manager"
        response := "done", needs_escalation := false
        delegate_to := some "marketing_agent"
        usage := some ⟨1, 2, 3⟩ } false).communications.map
        Communication.message_type = ["delegation"]) := by
  constructor
  · decide
  · decide

/-- Claim C1 amended: for a turn whose primary result carries a non-empty
delegation target outside the five known responder ids, no second responder
invocation occurs and the primary result dict is returned unchanged (no
error), but one delegation-category Communication naming the unknown target
is still emitted, so the no-op is not communication-silent. -/
theorem unknown_delegation_noop (llm : String → LLMResult)
    (agent_name : String) (ctx : TurnContext) (result : Outcome) (db : Bool)
    (t : String) (hdel : result.delegate_to = some t)
    (hunk : agent_ids.contains t = false) (hne : t ≠ "") :
    (handle_delegation llm agent_name ctx result db).result = result
    ∧ (handle_delegation llm agent_name ctx result db).invoked = []
    ∧ (handle_delegation llm agent_name ctx result db).delegated_response
        = none
    ∧ (handle_delegation llm agent_name ctx result db).artifacts = []
    ∧ (handle_delegation llm agent_name ctx result db).communications.map
        Communication.message_type = ["delegation"] := by
  have hmem : t ∉ agent_ids := by simpa using hunk
  unfold handle_delegation
  rw [hdel]
  simp [hne, hmem]

/-- Claim C1 witness for the amended statement, at the unknown target
"marketing_agent". -/
theorem unknown_delegation_noop_witness :
    (handle_delegation (fun _ => ⟨"reply", 4, 4⟩) "business_agent"
      ⟨"plan the launch", [], ⟨some "Acme"⟩⟩
      { agent := "business_agent", agent_name := "Business Agent"
        response := "analysis", needs_escalation := false
        delegate_to := some "marketing_agent"
        usage := some ⟨6, 7, 13⟩ } true).result
      = { agent := "business_agent", agent_name := "Business Agent"
          response := "analysis", needs_escalation := false
          delegate_to := some "marketing_agent"
          usage := some ⟨6, 7, 13⟩ }
    ∧ (handle_delegation (fun _ => ⟨"reply", 4, 4⟩) "business_agent"
      ⟨"plan the launch", [], ⟨some "Acme"⟩⟩
      { agent := "business_agent", agent_name := "Business Agent"
        response := "analysis", needs_escalation := false
        delegate_to := some "marketing_agent"
        usage := some ⟨6, 7, 13⟩ } true).invoked = [] := by
  have h := unknown_delegation_noop (fun _ => ⟨"reply", 4, 4⟩)
    "business_agent" ⟨"plan the launch", [], ⟨some "Acme"⟩⟩
    { agent := "business_agent", agent_name := "Business Agent"
      response := "analysis", needs_escalation := false
      delegate_to := some "marketing_agent"
      usage := some ⟨6, 7, 13⟩ } true "marketing_agent" rfl
    (by decide) (by decide)
  exact ⟨h.1, h.2.1⟩

/-- Claim C2: on every delegated turn both the primary and the delegate
result carry a usage value, and the merged usage of the turn is their
field-wise sum; in particular merging usages (10, 20, 30) and (5, 5, 10)
yields (15, 25, 40). -/
theorem delegated_usage_merge (llm : String → LLMResult)
    (agent_name : String) (ctx : TurnContext) (a : String) (l : LLMResult)
    (db : Bool) (t : String)
    (hdel : (agent_process a l).delegate_to = some t)
    (hkn : agent_ids.contains t = true) :
    (agent_process a l).usage = some (invoke_llm_usage l)
    ∧ (agent_process t (llm t)).usage = some (invoke_llm_usage (llm t))
    ∧ (handle_delegation llm agent_name ctx (agent_process a l) db).result.usage
        = some { input_tokens := (invoke_llm_usage l).input_tokens
                   + (invoke_llm_usage (llm t)).input_tokens
                 output_tokens := (invoke_llm_usage l).output_tokens
                   + (invoke_llm_usage (llm t)).output_tokens
                 total_tokens := (invoke_llm_usage l).total_tokens
                   + (invoke_llm_usage (llm t)).total_tokens }
    ∧ mergeUsage (some ⟨10, 20, 30⟩) (some ⟨5, 5, 10⟩) = some ⟨15, 25, 40⟩ := by
  have hne : t ≠ "" := by
    rintro rfl
    exact absurd hkn (by decide)
  have hmem : t ∈ agent_ids := by simpa using hkn
  refine ⟨rfl, rfl, ?_, by decide⟩
  unfold handle_delegation
  rw [hdel]
  simp [hne, hmem, agent_process, mergeUsage, invoke_llm_usage]

/-- Claim C2 witness: a concrete delegated turn realizing the
(10, 20, 30) + (5, 5, 10) = (15, 25, 40) merge. -/
theorem delegated_usage_merge_witness :
    (handle_delegation (fun _ => ⟨"market findings", 5, 5⟩) "pm"
      ⟨"check the market", [], ⟨some "Acme"⟩⟩
      (agent_process "project_manager_agent"
        ⟨"DELEGATE TO DISCOVERY: validate the market", 10, 20⟩)
      true).result.usage = some ⟨15, 25, 40⟩ :=
  (delegated_usage_merge (fun _ => ⟨"market findings", 5, 5⟩) "pm"
    ⟨"check the market", [], ⟨some "Acme"⟩⟩ "project_manager_agent"
    ⟨"DELEGATE TO DISCOVERY: validate the market", 10, 20⟩ true
    "discovery_agent" (by decide) (by decide)).2.2.1

/-- Claim C5: when the Project-Manager responder's generated text contains
"DELEGATE TO DISCOVERY" (case-insensitively, i.e. in the upper-cased text),
its result's delegation target is "discovery_agent"; the delegation block
then invokes the Discovery responder with the same original turn context,
and the first two communications it appends are a delegation-category one
from the Project Manager to Discovery followed by a response-category one
back. -/
theorem pm_delegates_to_discovery (llm : String → LLMResult)
    (ctx : TurnContext) (l : LLMResult) (db : Bool)
    (h : pyIn "DELEGATE TO DISCOVERY" (pyUpper l.content) = true) :
    (agent_process "project_manager_agent" l).delegate_to
      = some "discovery_agent"
    ∧ (handle_delegation llm "project_manager_agent" ctx
        (agent_process "project_manager_agent" l) db).invoked
        = [("discovery_agent", ctx)]
    ∧ ((handle_delegation llm "project_manager_agent" ctx
        (agent_process "project_manager_agent" l) db).communications.map
          (fun c => (c.from_agent, c.to_agent, c.message_type))).take 2
        = [("project_manager_agent", "discovery_agent", "delegation"),
           ("discovery_agent", "project_manager_agent", "response")] := by
  have hdel : (agent_process "project_manager_agent" l).delegate_to
      = some "discovery_agent" := by
    simp [agent_process, check_delegation_pm, delegation_markers_pm,
      firstAgentMatch, h]
  have hmem : ("discovery_agent" : String) ∈ agent_ids := by decide
  refine ⟨hdel, ?_, ?_⟩
  · unfold handle_delegation
    rw [hdel]
    simp [hmem]
  · unfold handle_delegation
    rw [hdel]
    simp [hmem]

/-- Claim C5 witness: a concrete Project-Manager reply containing the marker
delegates to Discovery with the original context. -/
theorem pm_delegates_to_discovery_witness :
    (agent_process "project_manager_agent"
      ⟨"Review done. DELEGATE TO DISCOVERY: scan competitors", 10, 20⟩).delegate_to
      = some "discovery_agent"
    ∧ (handle_delegation (fun _ => ⟨"GO/NO-GO: promising", 5, 5⟩)
        "project_manager_agent"
        ⟨"please validate the idea", [("user", "context")], ⟨some "Acme"⟩⟩
        (agent_process "project_manager_agent"
          ⟨"Review done. DELEGATE TO DISCOVERY: scan competitors", 10, 20⟩)
        true).invoked
        = [("discovery_agent",
            ⟨"please validate the idea", [("user", "context")],
             ⟨some "Acme"⟩⟩)] := by
  have h := pm_delegates_to_discovery (fun _ => ⟨"GO/NO-GO: promising", 5, 5⟩)
    ⟨"please validate the idea", [("user", "context")], ⟨some "Acme"⟩⟩
    ⟨"Review done. DELEGATE TO DISCOVERY: scan competitors", 10, 20⟩ true
    (by decide)
  exact ⟨h.1, h.2.1⟩

/-- Claim C3 fails on the code: for the user text "What's our competitive
landscape?" none of the routing keywords occurs (the table has "competitors"
but not "competitive"), so the Router does not select "discovery_agent". -/
theorem router_competitive_landscape_not_discovery :
    detect_agent_request "What\x27s our competitive landscape?"
      "project_manager_agent" ≠ "discovery_agent" := by
  decide

/-- Claim C3 amended: for the user text "What's our competitive landscape?"
with previous responder "project_manager_agent", no routing keyword matches
and the Router keeps the previous responder "project_manager_agent". -/
theorem router_competitive_landscape_keeps_pm :
    detect_agent_request "What\x27s our competitive landscape?"
      "project_manager_agent" = "project_manager_agent" := by
  decide

/-- Claim C4 fails on the code: when no keyword matches, the Router returns
the previous-responder string unchanged, so for the previous responder
"marketing_agent" and the text "hello" its result is not one of the five
known responder ids. -/
theorem router_can_return_unknown_id :
    detect_agent_request "hello" "marketing_agent" = "marketing_agent"
    ∧ ¬ ("marketing_agent" ∈ agent_ids) := by
  constructor
  · decide
  · decide

/-- Claim C4 amended: the Router's selection function is deterministic and
total (it is a pure total function of the previous responder and the user
text), and its result is either one of the five known responder ids or the
previous-responder string returned unchanged. -/
theorem router_total_cases (message prev : String) :
    detect_agent_request message prev ∈ agent_ids
    ∨ detect_agent_request message prev = prev := by
  unfold detect_agent_request
  cases hm : firstAgentMatch agent_keywords (pyLower message) with
  | none => exact Or.inr rfl
  | some a =>
      left
      have hmem := firstAgentMatch_mem hm
      simpa [agent_keywords, agent_ids] using hmem

/-- Claim C10: when process_message is called with a current_agent outside
the five known responder ids and a user text matching no routing keyword,
the turn is processed by the default Project Manager responder while the
"current_agent" key of the returned dict is the unknown id as passed in. -/
theorem unknown_current_agent_passthrough (llm : String → LLMResult)
    (message : String) (history : List (String × String))
    (pctx : ProjectContext) (ca : String) (db : Bool)
    (hunk : agent_ids.contains ca = false) (hne : ca ≠ "")
    (hkw : firstAgentMatch agent_keywords (pyLower message) = none) :
    (process_message llm message history pctx (some ca) db).current_agent = ca
    ∧ (process_message llm message history pctx (some ca) db).result.agent
        = "project_manager_agent"
    ∧ (process_message llm message history pctx (some ca) db).invoked.head?
        = some ("project_manager_agent", ⟨message, history, pctx⟩) := by
  have hmem : ca ∉ agent_ids := by simpa using hunk
  have hdet : detect_agent_request message ca = ca := by
    unfold detect_agent_request
    rw [hkw]
  have hagent : ∀ l, (agent_process "project_manager_agent" l).agent
      = "project_manager_agent" := fun _ => rfl
  refine ⟨?_, ?_, ?_⟩
  · simp [process_message, hne, hdet]
  · simp [process_message, hne, hdet, hmem,
      handle_delegation_result_agent, default_agent, agent_process]
  · simp [process_message, hne, hdet, hmem, default_agent]

/-- Claim C10 witness at current_agent "marketing_agent" and the
keyword-free text "zzz". -/
theorem unknown_current_agent_passthrough_witness :
    (process_message (fun _ => ⟨"ok", 1, 2⟩) "zzz" [] ⟨none⟩
      (some "marketing_agent") false).current_agent = "marketing_agent"
    ∧ (process_message (fun _ => ⟨"ok", 1, 2⟩) "zzz" [] ⟨none⟩
      (some "marketing_agent") false).result.agent
        = "project_manager_agent" := by
  have h := unknown_current_agent_passthrough (fun _ => ⟨"ok", 1, 2⟩)
    "zzz" [] ⟨none⟩ "marketing_agent" false (by decide) (by decide)
    (by decide)
  exact ⟨h.1, h.2.1⟩

/-- Helper: an if-then-some-else-none value is present exactly when the
condition holds. -/
theorem isSome_ite {α : Type} {c : Prop} [Decidable c] (x : α) :
    ((if c then (some x : Option α) else none).isSome = true) ↔ c := by
  split <;> simp_all

/-- Helper: the marker list of the detector's table entry for an agent is the
spec-side marker list (empty when the agent has no entry). -/
theorem artifact_markers_list (agent : String) (pctx : ProjectContext) :
    (artifact_markers agent pctx).elim ([] : List String) ArtifactSpec.markers
      = specArtifactMarkers agent := by
  obtain ⟨nm⟩ := pctx
  unfold artifact_markers specArtifactMarkers
  split_ifs <;> rfl

/-- Helper: the title of the detector's table entry for an agent is the
spec-side filled template. -/
theorem artifact_markers_title (agent : String) (pctx : ProjectContext)
    (cfg : ArtifactSpec) (h : artifact_markers agent pctx = some cfg) :
    cfg.title = specArtifactTitle agent pctx.name := by
  obtain ⟨nm⟩ := pctx
  unfold artifact_markers at h
  split_ifs at h with h1 h2 h3 h4
  · cases h; simp [specArtifactTitle, h1]
  · cases h; simp [specArtifactTitle, h1, h2]
  · cases h; simp [specArtifactTitle, h1, h2, h3]
  · cases h; simp [specArtifactTitle, h1, h2, h3, h4]

/-- Claim C6: for every text, responder id and project context, artifact
detection succeeds iff one of the responder's fixed marker substrings occurs
(case-sensitively) in the text; on success the artifact's content is the
full unmodified text and its title is the responder's template filled with
the project name (default "Project"); the Project Manager, having no marker
mapping, never produces an artifact; and Discovery text containing
"GO/NO-GO" yields an artifact of type "market_analysis". -/
theorem artifact_detection_spec (response agent : String)
    (pctx : ProjectContext) :
    ((extract_artifact response agent pctx).isSome = true
      ↔ (specArtifactMarkers agent).any (fun m => pyIn m response) = true)
    ∧ (∀ art, extract_artifact response agent pctx = some art →
        art.content = response
        ∧ art.title = specArtifactTitle agent pctx.name)
    ∧ extract_artifact response "project_manager_agent" pctx = none
    ∧ (pyIn "GO/NO-GO" response = true →
        extract_artifact response "discovery_agent" pctx
          = some ⟨"market_analysis",
                  "Market Analysis: " ++ pctx.name.getD "Project",
                  response⟩) := by
  refine ⟨?_, ?_, ?_, ?_⟩
  · cases hcfg : artifact_markers agent pctx with
    | none =>
        have hspec : specArtifactMarkers agent = [] := by
          have hl := artifact_markers_list agent pctx
          rw [hcfg] at hl
          simpa using hl.symm
        unfold extract_artifact
        rw [hcfg, hspec]
        simp
    | some cfg =>
        have hmk : cfg.markers = specArtifactMarkers agent := by
          have hl := artifact_markers_list agent pctx
          rw [hcfg] at hl
          simpa using hl
        unfold extract_artifact
        rw [hcfg, ← hmk]
        exact isSome_ite _
  · intro art hart
    unfold extract_artifact at hart
    cases hcfg : artifact_markers agent pctx with
    | none => rw [hcfg] at hart; simp at hart
    | some cfg =>
        simp only [hcfg] at hart
        by_cases hc : cfg.markers.any (fun m => pyIn m response) = true
        · rw [if_pos hc] at hart
          cases hart
          exact ⟨rfl, artifact_markers_title agent pctx cfg hcfg⟩
        · rw [if_neg hc] at hart
          simp at hart
  · obtain ⟨nm⟩ := pctx
    simp [extract_artifact, artifact_markers]
  · intro h
    obtain ⟨nm⟩ := pctx
    simp [extract_artifact, artifact_markers, h]

/-- Claim C6 witness: concrete Discovery text containing "GO/NO-GO" yields a
market-analysis artifact whose content is the text and whose title carries
the project name. -/
theorem artifact_detection_spec_witness :
    extract_artifact "GO/NO-GO: proceed with the MVP" "discovery_agent"
      ⟨some "Acme"⟩
      = some ⟨"market_analysis", "Market Analysis: Acme",
              "GO/NO-GO: proceed with the MVP"⟩ :=
  (artifact_detection_spec "GO/NO-GO: proceed with the MVP"
    "discovery_agent" ⟨some "Acme"⟩).2.2.2 (by decide)

end PMHelpOrchestration
